import Mathlib

/-!
# Formal model of the DDW LeadMaster WhatsApp multi-session core

Shallow embedding of the session / queue / rate-limiter logic of the
repository (ConnectionManager, MessageSender, QRCodeHandler).  Timestamps
are modelled as rationals (milliseconds); JavaScript `Map`s are modelled as
association lists; `throw`/`catch` is modelled with `Except`; the external
transport adapter (venom-bot) is modelled by explicit result parameters.
-/

namespace LeadMaster

/-- Millisecond timestamps and durations (JS numbers; rationals suffice for
the arithmetic the code performs, including the fractional retry
multiplier). -/
abbrev Millis := ℚ

/-! ## Association-list model of JavaScript `Map` -/

/-- `Map.get`: first binding for the key. -/
def mapFind? {α : Type} (k : String) : List (String × α) → Option α
  | [] => none
  | (k', v) :: rest => if k' = k then some v else mapFind? k rest

/-- `Map.set`: replace the binding if present, else append. -/
def mapSet {α : Type} (k : String) (v : α) : List (String × α) → List (String × α)
  | [] => [(k, v)]
  | (k', v') :: rest => if k' = k then (k, v) :: rest else (k', v') :: mapSet k v rest

/-- `Map.delete`: remove the key's bindings. -/
def mapErase {α : Type} (k : String) (l : List (String × α)) : List (String × α) :=
  l.filter (fun p => p.1 ≠ k)

/-! ## ConnectionManager (src/unnamed/part_005)

One `Connection` per session.  `createdAt`/`lastActivity` timestamps,
free-form `metadata` and the per-connection `EventEmitter` are omitted: no
claim reads them.  The venom-bot adapter is external; each operation takes
the adapter call's outcome as an explicit `Except String Unit` / `Bool`
parameter, and errors are `Except.error` carrying the thrown message. -/

structure Connection where
  sessionId : String
  /-- creating / connected / qr_ready / reconnecting / error / closing -/
  status : String
  reconnectAttempts : Nat
  /-- whether `connection.client` is non-null -/
  hasClient : Bool
deriving Repr, DecidableEq

structure CMState where
  connections : List (String × Connection)
  isInitialized : Bool
  /-- `this.config.maxSessions` -/
  maxSessions : Nat
  /-- `this.config.reconnectAttempts` (the maximum) -/
  configReconnectAttempts : Nat
deriving Repr, DecidableEq

/-- `_validateSessionId` (part_005:555-567): rejects empty/whitespace-only
ids, ids longer than 50, and ids with a character outside
`/^[a-zA-Z0-9_-]+$/`. -/
def isSessChar (c : Char) : Bool :=
  (c.isLower || c.isUpper) || c.isDigit || c = '_' || c = '-'

/-- `sessionId.trim() === ''`: holds exactly when every character is
whitespace (in particular for the empty string, which is also caught by
the JS `!sessionId` falsiness check). -/
def trimEmpty (s : String) : Bool := s.data.all Char.isWhitespace

def validateSessionId (sessionId : String) : Except String Unit :=
  if trimEmpty sessionId then
    .error "SessionId debe ser un string no vacío"
  else if 50 < sessionId.length then
    .error "SessionId no puede tener más de 50 caracteres"
  else if ¬ (sessionId.data.all isSessChar ∧ sessionId ≠ "") then
    .error "SessionId solo puede contener letras, números, guiones y guiones bajos"
  else
    .ok ()

/-- `createSession` (part_005:71-154).  `adapterCreate` is the outcome of
`adapter.createInstance`; on adapter failure the placeholder record is
deleted again and the error is rethrown. -/
def createSession (st : CMState) (sessionId : String) (adapterCreate : Except String Unit) :
    CMState × Except String Unit :=
  if ¬ st.isInitialized then
    (st, .error "ConnectionManager no está inicializado")
  else
    match validateSessionId sessionId with
    | .error e => (st, .error e)
    | .ok () =>
      if st.maxSessions ≤ st.connections.length then
        (st, .error "Límite máximo de sesiones alcanzado")
      else if (mapFind? sessionId st.connections).isSome then
        (st, .error ("Sesión " ++ sessionId ++ " ya existe"))
      else
        let conn : Connection :=
          { sessionId := sessionId, status := "creating", reconnectAttempts := 0,
            hasClient := false }
        let st1 := { st with connections := mapSet sessionId conn st.connections }
        match adapterCreate with
        | .ok () =>
          let connUp := { conn with status := "connected", hasClient := true }
          ({ st1 with connections := mapSet sessionId connUp st1.connections }, .ok ())
        | .error e =>
          ({ st1 with connections := mapErase sessionId st1.connections }, .error e)

/-- `closeSession` (part_005:233-272).  Sets `status = closing`, asks the
adapter to close; on adapter success deletes the session and returns
`true`; on adapter failure the `catch` block marks the (still present)
session `error` and rethrows; a missing session returns `false`. -/
def closeSession (st : CMState) (sessionId : String) (adapterClose : Except String Unit) :
    CMState × Except String Bool :=
  match mapFind? sessionId st.connections with
  | none => (st, .ok false)
  | some conn =>
    let conn1 := { conn with status := "closing" }
    let st1 := { st with connections := mapSet sessionId conn1 st.connections }
    match adapterClose with
    | .ok () =>
      ({ st1 with connections := mapErase sessionId st1.connections }, .ok true)
    | .error e =>
      let connErr := { conn1 with status := "error" }
      ({ st1 with connections := mapSet sessionId connErr st1.connections }, .error e)

/-- Adapter `instanceConnected` listener (part_005:467-476): marks the
session connected and resets `reconnectAttempts` to 0. -/
def onInstanceConnected (st : CMState) (sessionId : String) : CMState :=
  match mapFind? sessionId st.connections with
  | none => st
  | some conn =>
    let connUp := { conn with status := "connected", reconnectAttempts := 0 }
    { st with connections := mapSet sessionId connUp st.connections }

/-- Result of `reconnectSession`; `adapterCreateCalled` records whether
`adapter.createInstance` was invoked (i.e. whether an actual reconnect was
attempted). -/
structure ReconnectOutcome where
  state : CMState
  result : Except String Bool
  adapterCreateCalled : Bool
deriving Repr

/-- `reconnectSession` (part_005:339-401).  If the retry budget is
exhausted the function throws and its `catch` marks the session `error`
without touching the counter or the adapter.  Otherwise it increments the
counter, closes the old instance (close errors are caught and only
logged), waits the backoff delay and calls `adapter.createInstance`; a
successful `createInstance` emits `instanceConnected` (handled by
`onInstanceConnected`, resetting the counter) before the final
`status = connected` assignments; a failing one lands in the `catch`,
which marks the session `error` and rethrows. -/
def reconnectSession (st : CMState) (sessionId : String)
    (adapterCreate : Except String Unit) : ReconnectOutcome :=
  match mapFind? sessionId st.connections with
  | none => ⟨st, .error ("Sesión " ++ sessionId ++ " no encontrada"), false⟩
  | some conn =>
    if st.configReconnectAttempts ≤ conn.reconnectAttempts then
      let connErr := { conn with status := "error" }
      ⟨{ st with connections := mapSet sessionId connErr st.connections },
       .error ("Máximo de intentos de reconexión alcanzado para " ++ sessionId), false⟩
    else
      let conn1 :=
        { conn with reconnectAttempts := conn.reconnectAttempts + 1, status := "reconnecting" }
      let st1 := { st with connections := mapSet sessionId conn1 st.connections }
      match adapterCreate with
      | .ok () =>
        let st2 := onInstanceConnected st1 sessionId
        match mapFind? sessionId st2.connections with
        | none => ⟨st2, .ok true, true⟩
        | some c =>
          let cUp := { c with status := "connected", hasClient := true }
          ⟨{ st2 with connections := mapSet sessionId cUp st2.connections }, .ok true, true⟩
      | .error e =>
        match mapFind? sessionId st1.connections with
        | none => ⟨st1, .error e, true⟩
        | some c =>
          let cErr := { c with status := "error" }
          ⟨{ st1 with connections := mapSet sessionId cErr st1.connections }, .error e, true⟩

/-! ### Concrete ConnectionManager states used by witnesses -/

/-- An initialized manager holding one connected session `s1`. -/
def cmDemo : CMState :=
  { connections := [("s1", ⟨"s1", "connected", 0, true⟩)], isInitialized := true,
    maxSessions := 10, configReconnectAttempts := 3 }

/-- An initialized manager with no sessions. -/
def cmFresh : CMState :=
  { connections := [], isInitialized := true, maxSessions := 10,
    configReconnectAttempts := 3 }

/-! ## QRCodeHandler (src/src/modules/whatsapp/connection/QRCodeHandler.js)

Only the read path (`getQRCode`) is embedded; QR image generation is
opaque (the rendered encodings are plain fields of the cached record). -/

structure QRImages where
  dataURL : String
  buffer : String
  base64 : String
deriving Repr, DecidableEq

structure QRData where
  sessionId : String
  attempts : Nat
  expiresAt : Millis
  originalBase64 : Option String
  originalAscii : Option String
  originalUrl : Option String
  images : QRImages
  scanned : Bool
deriving Repr, DecidableEq

/-- The `data` field of a `getQRCode` result (shape depends on the
requested format). -/
inductive QRPayload where
  | text (s : String)
  | maybeText (s : Option String)
  | originalPayload (base64 ascii url : Option String)
  | allPayload (images : QRImages) (base64 ascii url : Option String)
deriving Repr, DecidableEq

structure QRResult where
  sessionId : String
  format : String
  data : QRPayload
  attempts : Nat
deriving Repr, DecidableEq

structure QRCacheState where
  qrCache : List (String × QRData)
  isInitialized : Bool
  now : Millis
deriving Repr

/-- `format.toLowerCase()` (character-wise, which is what it does on the
ASCII format names involved). -/
def toLowerStr (s : String) : String := String.mk (s.data.map Char.toLower)

/-- The formats `getQRCode`'s `switch` recognizes. -/
def supportedQRFormats : List String :=
  ["dataurl", "data-url", "buffer", "base64", "ascii", "original", "all"]

/-- Body of `getQRCode` (QRCodeHandler.js:147-237) up to its `catch`:
missing record → `null`; expired record → deleted, `null`; otherwise the
`switch` on the lowercased format, whose `default` arm throws the
unsupported-format error. -/
def getQRCodeRaw (st : QRCacheState) (sessionId format : String) :
    Except String (QRCacheState × Option QRResult) :=
  if ¬ st.isInitialized then .error "QRCodeHandler no está inicializado"
  else
    match mapFind? sessionId st.qrCache with
    | none => .ok (st, none)
    | some qrData =>
      if qrData.expiresAt < st.now then
        .ok ({ st with qrCache := mapErase sessionId st.qrCache }, none)
      else
        let fmt := toLowerStr format
        if fmt = "dataurl" ∨ fmt = "data-url" then
          .ok (st, some ⟨sessionId, "dataURL", .text qrData.images.dataURL, qrData.attempts⟩)
        else if fmt = "buffer" then
          .ok (st, some ⟨sessionId, "buffer", .text qrData.images.buffer, qrData.attempts⟩)
        else if fmt = "base64" then
          .ok (st, some ⟨sessionId, "base64", .text qrData.images.base64, qrData.attempts⟩)
        else if fmt = "ascii" then
          .ok (st, some ⟨sessionId, "ascii", .maybeText qrData.originalAscii, qrData.attempts⟩)
        else if fmt = "original" then
          .ok (st, some ⟨sessionId, "original",
            .originalPayload qrData.originalBase64 qrData.originalAscii qrData.originalUrl,
            qrData.attempts⟩)
        else if fmt = "all" then
          .ok (st, some ⟨sessionId, "all",
            .allPayload qrData.images qrData.originalBase64 qrData.originalAscii
              qrData.originalUrl,
            qrData.attempts⟩)
        else
          .error ("Formato QR no soportado: " ++ format)

/-- Public `getQRCode`: the surrounding `try/catch` logs any thrown error
and returns `null` (the only state mutation, the expired-entry deletion,
happens on a non-throwing path). -/
def getQRCode (st : QRCacheState) (sessionId format : String) :
    QRCacheState × Option QRResult :=
  match getQRCodeRaw st sessionId format with
  | .ok r => r
  | .error _ => (st, none)

/-! ## MessageSender (src/src/modules/whatsapp/sender/MessageSender.js)

The model is per-session (claims are all about a single session's queue
and limiter; `sessionId` is implicit).  `now` is the clock, advanced by
the awaited delays.  The `sendAttempts` / `sentEvents` / `failedEvents` /
`finished` / `immediateSent` fields instrument, respectively, the calls to
`connectionManager.sendMessage`, the `messageSent` emissions, the
`messageFailed` emissions, the messages removed from the queue with their
terminal field values, and the recipients of immediate sends.  The
outcome of the adapter send (including the `Promise.race` timeout, which
is just one more way for it to reject) is the oracle
`sendOk : id → attempts → Bool`; the `while` loop gets explicit fuel
(the JS loop runs as long as work remains; every theorem holds for any
sufficiently large fuel). -/

structure SenderConfig where
  maxMessagesPerMinute : Nat
  messageDelay : Millis
  maxRetries : Nat
  retryMultiplier : ℚ
  maxQueueSize : Nat
  sendTimeout : Millis
  queueTimeout : Millis
deriving Repr

structure QueuedMessage where
  id : Nat
  /-- the JS field is named `to` (a Lean keyword) -/
  toAddr : String
  originalTo : String
  message : String
  /-- normal / high -/
  priority : String
  attempts : Nat
  maxRetries : Nat
  /-- queued / sending / sent / error / failed -/
  status : String
  queuedAt : Millis
  expiresAt : Millis
  delay : Millis
  timeout : Millis
  skipRateLimit : Bool
deriving Repr, DecidableEq

structure RateLimiter where
  count : Nat
  resetAt : Millis
deriving Repr, DecidableEq

structure SenderState where
  isInitialized : Bool
  queue : List QueuedMessage
  rateLimiter : Option RateLimiter
  now : Millis
  /-- models `_generateMessageId` (ids are globally unique) -/
  nextId : Nat
  sendAttempts : List (Nat × String)
  sentEvents : List Nat
  failedEvents : List Nat
  finished : List QueuedMessage
  immediateSent : List String
deriving Repr

/-- Substring containment on character lists (`String.prototype.includes`). -/
def listContainsSub (needle : List Char) : List Char → Bool
  | [] => needle.isPrefixOf []
  | c :: rest => needle.isPrefixOf (c :: rest) || listContainsSub needle rest

/-- `_formatPhoneNumber` (MessageSender.js:488-503): strip non-digits,
prepend the country code `54` to bare 10-digit numbers, append `@c.us`. -/
def formatPhoneNumber (number : String) : String :=
  let cleaned := String.mk (number.data.filter Char.isDigit)
  let cleaned :=
    if ¬ ("54".data.isPrefixOf cleaned.data) ∧ cleaned.length = 10
    then "54" ++ cleaned else cleaned
  if ¬ listContainsSub "@c.us".data cleaned.data then cleaned ++ "@c.us" else cleaned

/-- `_validateInputs` (MessageSender.js:466-482); the `sessionId` check is
outside this per-session model. -/
def validateInputs (toAddr message : String) : Except String Unit :=
  if toAddr = "" then .error "Destinatario es requerido y debe ser string"
  else if message = "" then .error "Mensaje es requerido y debe ser string"
  else if 4096 < message.length then .error "Mensaje muy largo (máximo 4096 caracteres)"
  else .ok ()

/-- `_checkRateLimit` (MessageSender.js:530-547): no limiter yet → allowed;
window elapsed → reset (mutating the limiter) and allow; otherwise allowed
iff `count < maxMessagesPerMinute`.  Returns (allowed, limiter-after). -/
def checkRateLimit (limit : Nat) (now : Millis) (rl : Option RateLimiter) :
    Bool × Option RateLimiter :=
  match rl with
  | none => (true, none)
  | some r =>
    if r.resetAt ≤ now then (true, some ⟨0, now + 60000⟩)
    else (decide (r.count < limit), some r)

/-- `_recordSentMessage` (MessageSender.js:553-563): create the limiter
(count 0, window one minute) if absent, then increment. -/
def recordSentMessage (now : Millis) (rl : Option RateLimiter) : RateLimiter :=
  match rl with
  | none => ⟨1, now + 60000⟩
  | some r => ⟨r.count + 1, r.resetAt⟩

/-- `_waitForRateLimit` (MessageSender.js:756-766): sleep until the
window's `resetAt` (no-op when no limiter or already past). -/
def waitForRateLimit (now : Millis) (rl : Option RateLimiter) : Millis :=
  match rl with
  | none => now
  | some r => max now r.resetAt

structure SendOptions where
  priority : Option String := none
  maxRetries : Option Nat := none
  delay : Option Millis := none
  timeout : Option Millis := none
  skipRateLimit : Bool := false
deriving Repr

structure EnqueueResult where
  messageId : Nat
  queuePosition : Nat
  estimatedSendTime : Millis
deriving Repr, DecidableEq

/-- `sendMessage` (MessageSender.js:82-177): validate, build the message
object (formatted recipient, TTL `expiresAt`), check the session exists
(`sessionExists` stands for `connectionManager.getSession(...)`), check
queue capacity, then `unshift` for high priority / `push` otherwise; the
returned `queuePosition` is the queue length after insertion and the
estimate is `position × messageDelay` from now.  (`_startProcessing` is
the explicit `processQueue` below.) -/
def sendMessage (cfg : SenderConfig) (st : SenderState) (sessionExists : Bool)
    (toAddr message : String) (opts : SendOptions) : SenderState × Except String EnqueueResult :=
  if ¬ st.isInitialized then (st, .error "MessageSender no está inicializado")
  else
    match validateInputs toAddr message with
    | .error e => (st, .error e)
    | .ok () =>
      let messageId := st.nextId
      let formattedTo := formatPhoneNumber toAddr
      let msg : QueuedMessage :=
        { id := messageId, toAddr := formattedTo, originalTo := toAddr, message := message,
          priority := opts.priority.getD "normal", attempts := 0,
          maxRetries := opts.maxRetries.getD cfg.maxRetries, status := "queued",
          queuedAt := st.now, expiresAt := st.now + cfg.queueTimeout,
          delay := opts.delay.getD cfg.messageDelay,
          timeout := opts.timeout.getD cfg.sendTimeout,
          skipRateLimit := opts.skipRateLimit }
      if ¬ sessionExists then (st, .error "Sesión no encontrada")
      else if cfg.maxQueueSize ≤ st.queue.length then
        (st, .error "Cola de mensajes llena")
      else
        let queue' := if msg.priority = "high" then msg :: st.queue else st.queue ++ [msg]
        ({ st with queue := queue', nextId := st.nextId + 1 },
         .ok ⟨messageId, queue'.length,
              st.now + (queue'.length : ℚ) * cfg.messageDelay⟩)

/-- `sendImmediateMessage` (MessageSender.js:187-234): validate, format,
rate-limit check unless skipped (the check's lazy reset persists), send
through the connection manager (`connSend` is its outcome), record the
sent message in the limiter on success; all errors are rethrown. -/
def sendImmediateMessage (cfg : SenderConfig) (st : SenderState) (toAddr message : String)
    (skip : Bool) (connSend : Except String Unit) : SenderState × Except String String :=
  if ¬ st.isInitialized then (st, .error "MessageSender no está inicializado")
  else
    match validateInputs toAddr message with
    | .error e => (st, .error e)
    | .ok () =>
      let formattedTo := formatPhoneNumber toAddr
      if skip then
        match connSend with
        | .ok () =>
          ({ st with immediateSent := st.immediateSent ++ [formattedTo] }, .ok formattedTo)
        | .error e => (st, .error e)
      else
        let c := checkRateLimit cfg.maxMessagesPerMinute st.now st.rateLimiter
        let st1 := { st with rateLimiter := c.2 }
        if ¬ c.1 then (st1, .error "Rate limit excedido")
        else
          match connSend with
          | .ok () =>
            ({ st1 with rateLimiter := some (recordSentMessage st1.now st1.rateLimiter),
                        immediateSent := st1.immediateSent ++ [formattedTo] },
             .ok formattedTo)
          | .error e => (st1, .error e)

/-- `_processQueue` (MessageSender.js:622-702) with `_sendQueuedMessage`
inlined: drop expired head; wait out the rate-limit window; otherwise
attempt the send — success removes the head (status `sent`), records the
limiter, emits `messageSent` and waits the inter-message delay; failure
increments `attempts` (status `failed`): if `attempts ≥ maxRetries` the
head is dropped and `messageFailed` emitted, else the loop waits
`delay × retryMultiplier ^ (attempts − 1)` and retries the same head.
Transport errors are consumed by the loop's `catch`; the function always
returns a state, never an error. -/
def processQueue (cfg : SenderConfig) (sendOk : Nat → Nat → Bool) :
    Nat → SenderState → SenderState
  | 0, st => st
  | fuel + 1, st =>
    match st.queue with
    | [] => st
    | msg :: rest =>
      if msg.expiresAt < st.now then
        processQueue cfg sendOk fuel { st with queue := rest }
      else
        let c := if msg.skipRateLimit then (true, st.rateLimiter)
                 else checkRateLimit cfg.maxMessagesPerMinute st.now st.rateLimiter
        if ¬ c.1 then
          processQueue cfg sendOk fuel
            { st with rateLimiter := c.2, now := waitForRateLimit st.now c.2 }
        else
          let st1 := { st with rateLimiter := c.2 }
          if sendOk msg.id msg.attempts then
            let sentMsg := { msg with status := "sent" }
            let rl' := if msg.skipRateLimit then st1.rateLimiter
                       else some (recordSentMessage st1.now st1.rateLimiter)
            let now' := if 0 < msg.delay then st1.now + msg.delay else st1.now
            let st2 := { st1 with queue := rest, rateLimiter := rl', now := now' }
            let st3 := { st2 with sendAttempts := st2.sendAttempts ++ [(msg.id, msg.toAddr)] }
            let st4 := { st3 with sentEvents := st3.sentEvents ++ [msg.id] }
            processQueue cfg sendOk fuel { st4 with finished := st4.finished ++ [sentMsg] }
          else
            let msg1 := { msg with attempts := msg.attempts + 1, status := "failed" }
            if msg1.maxRetries ≤ msg1.attempts then
              let st2 := { st1 with queue := rest }
              let st3 := { st2 with sendAttempts := st2.sendAttempts ++ [(msg.id, msg.toAddr)] }
              let st4 := { st3 with failedEvents := st3.failedEvents ++ [msg.id] }
              processQueue cfg sendOk fuel { st4 with finished := st4.finished ++ [msg1] }
            else
              let retryDelay := msg1.delay * cfg.retryMultiplier ^ (msg1.attempts - 1)
              let st2 := { st1 with queue := msg1 :: rest, now := st1.now + retryDelay }
              processQueue cfg sendOk fuel
                { st2 with sendAttempts := st2.sendAttempts ++ [(msg.id, msg.toAddr)] }

/-- `_cleanupExpiredMessages` (MessageSender.js:783-811): keep exactly the
messages with `now ≤ expiresAt`. -/
def cleanupExpiredMessages (now : Millis) (queue : List QueuedMessage) :
    List QueuedMessage :=
  queue.filter (fun message => now ≤ message.expiresAt)

/-- The state after one successful drain-loop send of the head message
(with `skipRateLimit`, so the limiter is untouched). -/
def successStepState (st : SenderState) (msg : QueuedMessage)
    (rest : List QueuedMessage) : SenderState :=
  let a := { st with queue := rest, now := if 0 < msg.delay then st.now + msg.delay else st.now }
  let b := { a with sendAttempts := a.sendAttempts ++ [(msg.id, msg.toAddr)] }
  let c := { b with sentEvents := b.sentEvents ++ [msg.id] }
  { c with finished := c.finished ++ [{ msg with status := "sent" }] }

/-! ### Concrete MessageSender fixtures used by witnesses -/

def demoCfg : SenderConfig :=
  { maxMessagesPerMinute := 2, messageDelay := 0, maxRetries := 3, retryMultiplier := 3/2,
    maxQueueSize := 1000, sendTimeout := 0, queueTimeout := 0 }

def demoEmpty : SenderState :=
  { isInitialized := true, queue := [], rateLimiter := none, now := 0, nextId := 1,
    sendAttempts := [], sentEvents := [], failedEvents := [], finished := [],
    immediateSent := [] }

/-- Options for a high-priority message that skips the rate limiter. -/
def highOpts : SendOptions := { priority := some "high", skipRateLimit := true }

/-- State after enqueueing high-priority message 1 (`to "111"`). -/
def c3St1 : SenderState := (sendMessage demoCfg demoEmpty true "111" "a" highOpts).1

/-- State after then enqueueing high-priority message 2 (`to "222"`). -/
def c3St2 : SenderState := (sendMessage demoCfg c3St1 true "222" "b" highOpts).1

/-! ### Rate limiter (C4) -/

/-- The sent count the limiter effectively holds at `now`: 0 when no
limiter exists yet or the window has elapsed (lazy reset), else the stored
count. -/
def effectiveCount (now : Millis) (rl : Option RateLimiter) : Nat :=
  match rl with
  | none => 0
  | some r => if r.resetAt ≤ now then 0 else r.count

/-- `n` back-to-back `sendImmediateMessage` calls at the same instant
(rate limiter consulted, adapter always succeeding), counting
(successes, rejections). -/
def immediateBatch (cfg : SenderConfig) (toA msgText : String) :
    Nat → SenderState → SenderState × Nat × Nat
  | 0, st => (st, 0, 0)
  | n + 1, st =>
    let r := sendImmediateMessage cfg st toA msgText false (.ok ())
    let t := immediateBatch cfg toA msgText n r.1
    match r.2 with
    | .ok _ => (t.1, t.2.1 + 1, t.2.2)
    | .error _ => (t.1, t.2.1, t.2.2 + 1)

/-- A message that expired at time 0, inspected at time 1. -/
def expiredMsg : QueuedMessage :=
  { id := 1, toAddr := "5551234@c.us", originalTo := "555-1234", message := "hi",
    priority := "normal", attempts := 0, maxRetries := 3, status := "queued",
    queuedAt := 0, expiresAt := 0, delay := 0, timeout := 0, skipRateLimit := true }

def expiredSt : SenderState :=
  { isInitialized := true, queue := [expiredMsg], rateLimiter := none, now := 1, nextId := 2,
    sendAttempts := [], sentEvents := [], failedEvents := [], finished := [],
    immediateSent := [] }

/-! ### Retry exhaustion (C2) -/

/-- Total backoff the drain loop sleeps while the head message, currently
at `attempts = a`, goes through `j` further failing attempts: the loop
waits `delay · multiplier ^ (attempts − 1)` after each non-final failure
and nothing after the final one. -/
def retryWaitFrom (delay mult : Millis) : Nat → Nat → Millis
  | _, 0 => 0
  | _, 1 => 0
  | a, j + 2 => delay * mult ^ a + retryWaitFrom delay mult (a + 1) (j + 1)

/-- The state after the drain loop has burned the head message through `j`
consecutive failing attempts, waiting `wait` in total, removing it as
`failed` and emitting one `messageFailed`. -/
def failRunState (st : SenderState) (msg : QueuedMessage) (rest : List QueuedMessage)
    (wait : Millis) (j : Nat) : SenderState :=
  let a := { st with queue := rest, now := st.now + wait }
  let b := { a with sendAttempts := a.sendAttempts ++ List.replicate j (msg.id, msg.toAddr) }
  let c := { b with failedEvents := b.failedEvents ++ [msg.id] }
  { c with finished := c.finished ++ [{ msg with attempts := msg.attempts + j, status := "failed" }] }

/-- The state after one failing, non-final attempt of the head message:
requeued with `attempts + 1`, status `failed`, after the backoff wait. -/
def retryStepState (st : SenderState) (msg : QueuedMessage) (rest : List QueuedMessage)
    (cfg : SenderConfig) : SenderState :=
  let msg1 := { msg with attempts := msg.attempts + 1, status := "failed" }
  let a := { st with queue := msg1 :: rest, now := st.now + msg1.delay * cfg.retryMultiplier ^ (msg1.attempts - 1) }
  { a with sendAttempts := a.sendAttempts ++ [(msg.id, msg.toAddr)] }

/-- A fresh message the adapter will reject on every attempt. -/
def c2Msg : QueuedMessage :=
  { id := 1, toAddr := "5551234@c.us", originalTo := "555-1234", message := "hi",
    priority := "normal", attempts := 0, maxRetries := 3, status := "queued",
    queuedAt := 0, expiresAt := 0, delay := 0, timeout := 0, skipRateLimit := true }

def c2St : SenderState :=
  { isInitialized := true, queue := [c2Msg], rateLimiter := none, now := 0, nextId := 2,
    sendAttempts := [], sentEvents := [], failedEvents := [], finished := [],
    immediateSent := [] }

/-! ### Pairing-code formats (C8) -/

def qrDemoData : QRData :=
  { sessionId := "s1", attempts := 3, expiresAt := 120000,
    originalBase64 := some "b64", originalAscii := some "ascii-art",
    originalUrl := some "qr-url", images := ⟨"img-dataurl", "img-buffer", "img-base64"⟩,
    scanned := false }

def qrDemo : QRCacheState :=
  { qrCache := [("s1", qrDemoData)], isInitialized := true, now := 1000 }

/-! ## Theorems -/

theorem mapFind?_mapSet_same {α : Type} (k : String) (v : α) (l : List (String × α)) :
    mapFind? k (mapSet k v l) = some v := by
  induction l with
  | nil => simp [mapSet, mapFind?]
  | cons p rest ih =>
    by_cases h : p.1 = k
    · simp [mapSet, mapFind?, h]
    · simp [mapSet, mapFind?, h, ih]

theorem mapFind?_mapSet_other {α : Type} (k k' : String) (v : α) (l : List (String × α))
    (h : k ≠ k') : mapFind? k (mapSet k' v l) = mapFind? k l := by
  have h' : ¬ (k' = k) := fun e => h e.symm
  induction l with
  | nil => simp [mapSet, mapFind?, h']
  | cons p rest ih =>
    by_cases hp : p.1 = k'
    · have hpk : ¬ (p.1 = k) := by rw [hp]; exact h'
      simp [mapSet, mapFind?, hp, h', hpk]
    · by_cases hk : p.1 = k <;> simp [mapSet, mapFind?, hp, hk, ih, h]

theorem mapFind?_mapErase_same {α : Type} (k : String) (l : List (String × α)) :
    mapFind? k (mapErase k l) = none := by
  induction l with
  | nil => simp [mapErase, mapFind?]
  | cons p rest ih =>
    by_cases h : p.1 = k
    · simpa [mapErase, mapFind?, h] using ih
    · simpa [mapErase, mapFind?, h] using ih

/-- Helper: erasing a key wipes it even after an intervening `mapSet`. -/
theorem mapFind?_mapErase_mapSet {α : Type} (k : String) (v : α) (l : List (String × α)) :
    mapFind? k (mapErase k (mapSet k v l)) = none :=
  mapFind?_mapErase_same k _

/-- C1: if `reconnectAttempts` has reached the `maxReconnectAttempts`
budget, `reconnectSession` fails with the retry-exhausted error without
calling the adapter and leaves the session's status `error` with the
counter unchanged; below the budget it calls the adapter, ends with the
counter reset to 0 on a successful connection and with the counter
incremented (status `error`) on a failed one; the counter never exceeds
the budget; and the adapter's `instanceConnected` event resets the counter
to 0. -/
theorem reconnectSession_bounded_counter (st : CMState) (sid : String) (conn : Connection)
    (a : Except String Unit) (h : mapFind? sid st.connections = some conn) :
    (st.configReconnectAttempts ≤ conn.reconnectAttempts →
      (reconnectSession st sid a).result =
        .error ("Máximo de intentos de reconexión alcanzado para " ++ sid) ∧
      (reconnectSession st sid a).adapterCreateCalled = false ∧
      mapFind? sid (reconnectSession st sid a).state.connections =
        some { conn with status := "error" }) ∧
    (conn.reconnectAttempts < st.configReconnectAttempts →
      (reconnectSession st sid a).adapterCreateCalled = true ∧
      (a = .ok () →
        (reconnectSession st sid a).result = .ok true ∧
        mapFind? sid (reconnectSession st sid a).state.connections =
          some { conn with status := "connected", reconnectAttempts := 0, hasClient := true }) ∧
      (∀ e, a = .error e →
        (reconnectSession st sid a).result = .error e ∧
        mapFind? sid (reconnectSession st sid a).state.connections =
          some { conn with status := "error", reconnectAttempts := conn.reconnectAttempts + 1 })) ∧
    (conn.reconnectAttempts ≤ st.configReconnectAttempts →
      ∀ c', mapFind? sid (reconnectSession st sid a).state.connections = some c' →
        c'.reconnectAttempts ≤ st.configReconnectAttempts) ∧
    (mapFind? sid (onInstanceConnected st sid).connections =
      some { conn with status := "connected", reconnectAttempts := 0 }) := by
  by_cases hmax : st.configReconnectAttempts ≤ conn.reconnectAttempts
  · refine ⟨fun _ => ⟨?_, ?_, ?_⟩, fun hlt => absurd hmax (not_le.mpr hlt),
      fun hle c' hc' => ?_, ?_⟩
    · simp [reconnectSession, h, hmax]
    · simp [reconnectSession, h, hmax]
    · simp [reconnectSession, h, hmax, mapFind?_mapSet_same]
    · have hv : mapFind? sid (reconnectSession st sid a).state.connections =
          some { conn with status := "error" } := by
        simp [reconnectSession, h, hmax, mapFind?_mapSet_same]
      rw [hv] at hc'
      injection hc' with h2
      subst h2
      simpa using hle
    · simp [onInstanceConnected, h, mapFind?_mapSet_same]
  · have hlt := not_le.mp hmax
    refine ⟨fun hge => absurd hge hmax, fun _ => ⟨?_, ?_, ?_⟩, fun hle c' hc' => ?_, ?_⟩
    · cases a with
      | ok u =>
        cases u
        simp [reconnectSession, h, hmax, onInstanceConnected, mapFind?_mapSet_same]
      | error e =>
        simp [reconnectSession, h, hmax, mapFind?_mapSet_same]
    · intro ha
      subst ha
      constructor
      · simp [reconnectSession, h, hmax, onInstanceConnected, mapFind?_mapSet_same]
      · simp [reconnectSession, h, hmax, onInstanceConnected, mapFind?_mapSet_same]
    · intro e ha
      subst ha
      constructor
      · simp [reconnectSession, h, hmax, mapFind?_mapSet_same]
      · simp [reconnectSession, h, hmax, mapFind?_mapSet_same]
    · cases a with
      | ok u =>
        cases u
        have hv : mapFind? sid (reconnectSession st sid (.ok ())).state.connections =
            some { conn with status := "connected", reconnectAttempts := 0, hasClient := true } := by
          simp [reconnectSession, h, hmax, onInstanceConnected, mapFind?_mapSet_same]
        rw [hv] at hc'
        injection hc' with h2
        subst h2
        exact Nat.zero_le _
      | error e =>
        have hv : mapFind? sid (reconnectSession st sid (.error e)).state.connections =
            some { conn with status := "error", reconnectAttempts := conn.reconnectAttempts + 1 } := by
          simp [reconnectSession, h, hmax, mapFind?_mapSet_same]
        rw [hv] at hc'
        injection hc' with h2
        subst h2
        exact hlt
    · simp [onInstanceConnected, h, mapFind?_mapSet_same]

/-- C1 witness: on `cmDemo` (counter 0, budget 3) a reconnect with a
succeeding adapter returns `true` and leaves the counter at 0. -/
theorem reconnectSession_bounded_counter_witness :
    (reconnectSession cmDemo "s1" (.ok ())).result = .ok true ∧
    mapFind? "s1" (reconnectSession cmDemo "s1" (.ok ())).state.connections =
      some ⟨"s1", "connected", 0, true⟩ := by
  have h := reconnectSession_bounded_counter cmDemo "s1" ⟨"s1", "connected", 0, true⟩
    (.ok ()) rfl
  exact (h.2.1 (by decide)).2.1 rfl

/-- C6 counterexample: on `cmDemo`, closing `s1` while the adapter close
fails does *not* remove the session — it stays in the live map with status
`error` — and `closeSession` rethrows the adapter error instead of
returning normally. -/
theorem closeSession_adapter_failure_not_removed :
    (closeSession cmDemo "s1" (.error "boom")).2 = .error "boom" ∧
    mapFind? "s1" (closeSession cmDemo "s1" (.error "boom")).1.connections =
      some ⟨"s1", "error", 0, true⟩ :=
  ⟨rfl, rfl⟩

/-- C6 (amended): `closeSession` on an existing session sets the status to
`closing` and asks the adapter to close; if the adapter close succeeds the
session is removed and `true` is returned, but if it fails the session is
kept with status `error` and the adapter error is rethrown; a missing
session yields `false` without an exception. -/
theorem closeSession_behaviour (st : CMState) (sid : String) :
    (mapFind? sid st.connections = none →
      ∀ a, closeSession st sid a = (st, .ok false)) ∧
    (∀ conn, mapFind? sid st.connections = some conn →
      (mapFind? sid (closeSession st sid (.ok ())).1.connections = none ∧
        (closeSession st sid (.ok ())).2 = .ok true) ∧
      (∀ e, (closeSession st sid (.error e)).2 = .error e ∧
        mapFind? sid (closeSession st sid (.error e)).1.connections =
          some { conn with status := "error" })) := by
  constructor
  · intro hnone a
    simp [closeSession, hnone]
  · intro conn h
    refine ⟨⟨?_, ?_⟩, fun e => ⟨?_, ?_⟩⟩
    · simp [closeSession, h, mapFind?_mapErase_same]
    · simp [closeSession, h]
    · simp [closeSession, h]
    · simp [closeSession, h, mapFind?_mapSet_same]

/-- C6 witness: closing `s1` on `cmDemo` with a succeeding adapter removes
it and returns `true`. -/
theorem closeSession_behaviour_witness :
    mapFind? "s1" (closeSession cmDemo "s1" (.ok ())).1.connections = none ∧
    (closeSession cmDemo "s1" (.ok ())).2 = .ok true :=
  ((closeSession_behaviour cmDemo "s1").2 ⟨"s1", "connected", 0, true⟩ rfl).1

/-- C7: `closeSession` is idempotent — after a close that returned `true`,
a second `closeSession` on the same id returns `false` (not found) and
does not throw, whatever the adapter would do. -/
theorem closeSession_idempotent (st : CMState) (sid : String) (a1 a2 : Except String Unit)
    (h : (closeSession st sid a1).2 = .ok true) :
    closeSession (closeSession st sid a1).1 sid a2 = ((closeSession st sid a1).1, .ok false) := by
  rcases hm : mapFind? sid st.connections with _ | conn
  · rw [closeSession, hm] at h
    cases h
  · cases a1 with
    | ok u =>
      cases u
      have hgone : mapFind? sid (closeSession st sid (.ok ())).1.connections = none := by
        simp [closeSession, hm, mapFind?_mapErase_same]
      rw [closeSession, hgone]
    | error e =>
      rw [closeSession, hm] at h
      cases h

/-- C7 witness: close `s1` on `cmDemo` twice; the second call returns
`false` without an exception. -/
theorem closeSession_idempotent_witness :
    closeSession (closeSession cmDemo "s1" (.ok ())).1 "s1" (.ok ()) =
      ((closeSession cmDemo "s1" (.ok ())).1, .ok false) :=
  closeSession_idempotent cmDemo "s1" (.ok ()) (.ok ()) rfl

/-- C9 counterexample: the id `"ab"` is only 2 characters long, yet
`createSession` accepts it and registers the session — there is no
minimum length of 3. -/
theorem createSession_accepts_short_id :
    (createSession cmFresh "ab" (.ok ())).2 = .ok () ∧
    mapFind? "ab" (createSession cmFresh "ab" (.ok ())).1.connections =
      some ⟨"ab", "connected", 0, true⟩ :=
  ⟨rfl, rfl⟩

/-- C9 (amended): `createSession` rejects exactly the sessionIds that are
empty after trimming, longer than 50 characters, or containing a character
outside `[A-Za-z0-9_-]` — the accepted pattern is `[A-Za-z0-9_-]{1,50}`,
with no minimum length of 3 — and a rejected id registers no session (the
state is unchanged). -/
theorem createSession_rejects_invalid_ids :
    (∀ (st : CMState) (sid : String) (a : Except String Unit) (e : String),
      st.isInitialized = true → validateSessionId sid = .error e →
      createSession st sid a = (st, .error e)) ∧
    (∀ sid : String, validateSessionId sid = .ok () ↔
      (trimEmpty sid = false ∧ sid.length ≤ 50 ∧ sid.data.all isSessChar = true ∧ sid ≠ "")) := by
  constructor
  · intro st sid a e hinit hval
    simp [createSession, hinit, hval]
  · intro sid
    constructor
    · intro hok
      rw [validateSessionId] at hok
      split at hok
      · cases hok
      · split at hok
        · cases hok
        · split at hok
          · cases hok
          · rename_i h1 h2 h3
            push_neg at h3
            refine ⟨by simpa using h1, le_of_not_lt h2, by simpa using h3⟩
    · rintro ⟨h1, h2, h3, h4⟩
      rw [validateSessionId]
      rw [if_neg (by simp [h1]), if_neg (not_lt.mpr h2), if_neg]
      simp [h3, h4]

/-- C9 witness: `"a!"` contains `!`, so `createSession` on `cmFresh`
rejects it with the identifier-validation error and leaves the state
unchanged. -/
theorem createSession_rejects_invalid_ids_witness :
    createSession cmFresh "a!" (.ok ()) =
      (cmFresh,
       .error "SessionId solo puede contener letras, números, guiones y guiones bajos") :=
  (createSession_rejects_invalid_ids).1 cmFresh "a!" (.ok ()) _ rfl rfl

/-! ### Helper lemmas about phone-number formatting -/

theorem listContainsSub_false_of_digits (l : List Char)
    (h : ∀ c ∈ l, c.isDigit = true) : listContainsSub "@c.us".data l = false := by
  induction l with
  | nil => rfl
  | cons c rest ih =>
    have hc : c.isDigit = true := h c (List.mem_cons_self c rest)
    have h1 : ('@' == c) = false := by
      refine beq_eq_false_iff_ne.mpr fun e => ?_
      rw [← e] at hc
      exact absurd hc (by decide)
    have ih' := ih fun d hd => h d (List.mem_cons_of_mem c hd)
    show ("@c.us".data.isPrefixOf (c :: rest) || listContainsSub "@c.us".data rest) = false
    rw [ih', show "@c.us".data = '@' :: "c.us".data from rfl]
    simp [List.isPrefixOf, h1]

theorem data_append_mk (a : String) (l : List Char) :
    (a ++ String.mk l).data = a.data ++ l := by
  cases a
  rfl

/-- C10: every recipient is normalized before delivery — non-digits are
stripped, a bare 10-digit number not starting with `54` gets the `54`
country prefix, and `@c.us` is always appended (the digit string never
already contains it); both the queued path (`sendMessage` stores the
normalized address in the message that is enqueued, and the drain loop's
send attempt targets that stored address) and the immediate path
(`sendImmediateMessage`) deliver to the normalized address, not the
caller-supplied one. -/
theorem recipient_normalized_before_delivery :
    (∀ number : String,
      formatPhoneNumber number =
        (if ¬ ("54".data.isPrefixOf (String.mk (number.data.filter Char.isDigit)).data) ∧
             (String.mk (number.data.filter Char.isDigit)).length = 10
         then "54" ++ String.mk (number.data.filter Char.isDigit)
         else String.mk (number.data.filter Char.isDigit)) ++ "@c.us") ∧
    (∀ cfg st sessionExists toA msgText opts st' r,
      sendMessage cfg st sessionExists toA msgText opts = (st', .ok r) →
      ∃ m, m ∈ st'.queue ∧ m.id = r.messageId ∧ m.toAddr = formatPhoneNumber toA ∧
        m.originalTo = toA) ∧
    (∀ cfg sendOk fuel st msg rest,
      st.queue = msg :: rest → msg.skipRateLimit = true →
      ¬ msg.expiresAt < st.now → sendOk msg.id msg.attempts = true →
      ∃ st2, processQueue cfg sendOk (fuel + 1) st = processQueue cfg sendOk fuel st2 ∧
        st2.sendAttempts = st.sendAttempts ++ [(msg.id, msg.toAddr)]) ∧
    (∀ cfg st toA msgText skip connSend st' r,
      sendImmediateMessage cfg st toA msgText skip connSend = (st', .ok r) →
      r = formatPhoneNumber toA ∧
      st'.immediateSent = st.immediateSent ++ [formatPhoneNumber toA]) := by
  refine ⟨?_, ?_, ?_, ?_⟩
  · intro number
    have hdig : ∀ c ∈ number.data.filter Char.isDigit, c.isDigit = true := by
      intro c hc
      exact (List.mem_filter.mp hc).2
    have h54 : ∀ c ∈ ('5' :: '4' :: number.data.filter Char.isDigit), c.isDigit = true := by
      intro c hc
      rcases List.mem_cons.mp hc with rfl | hc
      · decide
      rcases List.mem_cons.mp hc with rfl | hc
      · decide
      · exact hdig c hc
    have hc1 : listContainsSub "@c.us".data
        (String.mk (number.data.filter Char.isDigit)).data = false :=
      listContainsSub_false_of_digits _ hdig
    have hc2 : listContainsSub "@c.us".data
        ("54" ++ String.mk (number.data.filter Char.isDigit)).data = false :=
      listContainsSub_false_of_digits _ h54
    simp only [formatPhoneNumber]
    by_cases hcond :
        ¬ ("54".data.isPrefixOf (String.mk (number.data.filter Char.isDigit)).data) ∧
          (String.mk (number.data.filter Char.isDigit)).length = 10
    · rw [if_pos hcond, hc2]
      simp
    · rw [if_neg hcond, hc1]
      simp
  · intro cfg st sessionExists toA msgText opts st' r h
    rw [sendMessage] at h
    split at h
    · cases h
    · split at h
      · cases h
      · split at h
        · cases h
        · split at h
          · cases h
          · dsimp only at h
            by_cases hp : opts.priority.getD "normal" = "high" <;>
              simp only [hp, if_true, if_false, ite_true, ite_false] at h <;>
              obtain ⟨hst, hr⟩ := Prod.mk.injEq _ _ _ _ ▸ h
            · injection hr with hr
              subst hst
              subst hr
              exact ⟨_, List.mem_cons_self _ _, rfl, rfl, rfl⟩
            · injection hr with hr
              subst hst
              subst hr
              exact ⟨_, List.mem_append_right _ (List.mem_cons_self _ _), rfl, rfl, rfl⟩
  · intro cfg sendOk fuel st msg rest hq hskip hexp hok
    refine ⟨successStepState st msg rest, ?_, ?_⟩
    · conv_lhs => rw [processQueue, hq]
      dsimp only
      rw [if_neg hexp]
      simp only [hskip, hok, ite_true, if_true, Bool.not_true, if_false, ite_false,
        not_true_eq_false]
      congr 1
      simp [successStepState, hskip]
    · simp [successStepState]
  · intro cfg st toA msgText skip connSend st' r h
    rw [sendImmediateMessage] at h
    split at h
    · cases h
    · split at h
      · cases h
      · dsimp only at h
        cases connSend with
        | error e =>
          split at h
          · simp at h
          · split at h
            · simp at h
            · simp at h
        | ok u =>
          cases u
          split at h
          · obtain ⟨hst, hr⟩ := Prod.mk.injEq _ _ _ _ ▸ h
            injection hr with hr
            subst hst
            subst hr
            exact ⟨rfl, rfl⟩
          · split at h
            · simp at h
            · obtain ⟨hst, hr⟩ := Prod.mk.injEq _ _ _ _ ▸ h
              injection hr with hr
              subst hst
              subst hr
              exact ⟨rfl, rfl⟩

/-- C10 witness: `"555-1234"` is stripped to 7 digits (no `54` prefix) and
delivered as `5551234@c.us`. -/
theorem recipient_normalized_before_delivery_witness :
    formatPhoneNumber "555-1234" =
      (if ¬ ("54".data.isPrefixOf (String.mk ("555-1234".data.filter Char.isDigit)).data) ∧
           (String.mk ("555-1234".data.filter Char.isDigit)).length = 10
       then "54" ++ String.mk ("555-1234".data.filter Char.isDigit)
       else String.mk ("555-1234".data.filter Char.isDigit)) ++ "@c.us" :=
  recipient_normalized_before_delivery.1 "555-1234"

/-- C3 counterexample: same-priority FIFO fails for high priority.  Message
1 is enqueued before message 2, both high-priority, yet the queue holds
[2, 1] (each `unshift` puts the newcomer in front of earlier high-priority
messages) and the drain loop dispatches message 2 first — the dispatch
order of equal-priority messages is LIFO, not FIFO. -/
theorem high_priority_not_fifo :
    c3St2.queue.map (fun m => m.id) = [2, 1] ∧
    ((processQueue demoCfg (fun _ _ => true) 2 c3St2).sendAttempts.map Prod.fst) = [2, 1] := by
  constructor
  · simp [c3St2, c3St1, sendMessage, demoCfg, demoEmpty, highOpts, validateInputs,
      show ¬ (4096 < "a".length) by decide, show ¬ (4096 < "b".length) by decide]
  · simp [c3St2, c3St1, sendMessage, demoCfg, demoEmpty, highOpts, validateInputs,
      processQueue, formatPhoneNumber, listContainsSub,
      show ¬ (4096 < "a".length) by decide, show ¬ (4096 < "b".length) by decide]

/-- C3 (amended): a successfully enqueued high-priority message is placed
at the very front of the queue — ahead of every already queued message, in
particular ahead of any number of earlier normal-priority messages, but
also ahead of earlier high-priority ones, so equal high priorities
dispatch LIFO — while a normal-priority message is appended, so normal
priorities dispatch FIFO among themselves; the drain loop always
dispatches the current queue head first. -/
theorem priority_insert_order (cfg : SenderConfig) (st : SenderState) (sessionExists : Bool)
    (toA msgText : String) (opts : SendOptions) (st' : SenderState) (r : EnqueueResult)
    (h : sendMessage cfg st sessionExists toA msgText opts = (st', .ok r)) :
    (opts.priority.getD "normal" = "high" →
      ∃ m, st'.queue = m :: st.queue ∧ m.id = r.messageId ∧ m.priority = "high") ∧
    (opts.priority.getD "normal" ≠ "high" →
      ∃ m, st'.queue = st.queue ++ [m] ∧ m.id = r.messageId ∧ m.priority ≠ "high") ∧
    (∀ sendOk fuel msg rest, st'.queue = msg :: rest → msg.skipRateLimit = true →
      ¬ msg.expiresAt < st'.now → sendOk msg.id msg.attempts = true →
      ∃ st2, processQueue cfg sendOk (fuel + 1) st' = processQueue cfg sendOk fuel st2 ∧
        st2.sendAttempts = st'.sendAttempts ++ [(msg.id, msg.toAddr)]) := by
  refine ⟨?_, ?_, ?_⟩
  · intro hp
    rw [sendMessage] at h
    split at h
    · cases h
    · split at h
      · cases h
      · split at h
        · cases h
        · split at h
          · cases h
          · dsimp only at h
            simp only [hp, if_true, ite_true] at h
            obtain ⟨hst, hr⟩ := Prod.mk.injEq _ _ _ _ ▸ h
            injection hr with hr
            subst hst
            subst hr
            exact ⟨_, rfl, rfl, rfl⟩
  · intro hp
    rw [sendMessage] at h
    split at h
    · cases h
    · split at h
      · cases h
      · split at h
        · cases h
        · split at h
          · cases h
          · dsimp only at h
            simp only [hp, if_false, ite_false] at h
            obtain ⟨hst, hr⟩ := Prod.mk.injEq _ _ _ _ ▸ h
            injection hr with hr
            subst hst
            subst hr
            exact ⟨_, rfl, rfl, hp⟩
  · intro sendOk fuel msg rest hq hskip hexp hok
    refine ⟨successStepState st' msg rest, ?_, ?_⟩
    · conv_lhs => rw [processQueue, hq]
      dsimp only
      rw [if_neg hexp]
      simp only [hskip, hok, ite_true, if_true, Bool.not_true, if_false, ite_false,
        not_true_eq_false]
      congr 1
      simp [successStepState, hskip]
    · simp [successStepState]

/-- C3 witness: enqueueing high-priority message 1 onto the empty demo
state puts it at the front of the (empty) queue. -/
theorem priority_insert_order_witness :
    ∃ m, c3St1.queue = m :: demoEmpty.queue ∧ m.id = 1 ∧ m.priority = "high" := by
  have h : sendMessage demoCfg demoEmpty true "111" "a" highOpts =
      (c3St1, .ok ⟨1, 1, 0⟩) := by
    simp [sendMessage, demoCfg, demoEmpty, highOpts, validateInputs, c3St1,
      show ¬ (4096 < "a".length) by decide]
  exact (priority_insert_order demoCfg demoEmpty true "111" "a" highOpts c3St1
    ⟨1, 1, 0⟩ h).1 rfl

theorem immediateBatch_counts (cfg : SenderConfig) (toA msgText : String)
    (hv : validateInputs toA msgText = .ok ()) :
    ∀ (n : Nat) (st : SenderState) (c : Nat) (ra : Millis),
      st.isInitialized = true →
      st.rateLimiter = some ⟨c, ra⟩ → st.now < ra →
      (immediateBatch cfg toA msgText n st).2 =
        (min n (cfg.maxMessagesPerMinute - c),
         n - min n (cfg.maxMessagesPerMinute - c)) := by
  intro n
  induction n with
  | zero =>
    intro st c ra hi hrl hra
    simp [immediateBatch]
  | succ n ih =>
    intro st c ra hi hrl hra
    have hch : checkRateLimit cfg.maxMessagesPerMinute st.now st.rateLimiter =
        (decide (c < cfg.maxMessagesPerMinute), some ⟨c, ra⟩) := by
      rw [hrl, checkRateLimit, if_neg (not_le.mpr hra)]
    by_cases hc : c < cfg.maxMessagesPerMinute
    · have hsend : sendImmediateMessage cfg st toA msgText false (.ok ()) =
          ({ st with rateLimiter := some ⟨c + 1, ra⟩, immediateSent := st.immediateSent ++ [formatPhoneNumber toA] },
           .ok (formatPhoneNumber toA)) := by
        rw [sendImmediateMessage, hv]
        dsimp only
        rw [hch]
        simp [hi, hc, recordSentMessage]
      rw [immediateBatch, hsend]
      dsimp only
      have := ih ({ st with rateLimiter := some ⟨c + 1, ra⟩, immediateSent := st.immediateSent ++ [formatPhoneNumber toA] }) (c + 1) ra hi rfl hra
      rw [this]
      rw [Prod.mk.injEq]
      constructor <;> omega
    · have hsend : sendImmediateMessage cfg st toA msgText false (.ok ()) =
          ({ st with rateLimiter := some ⟨c, ra⟩ }, .error "Rate limit excedido") := by
        rw [sendImmediateMessage, hv]
        dsimp only
        rw [hch]
        simp [hi, hc, recordSentMessage]
      rw [immediateBatch, hsend]
      dsimp only
      have := ih ({ st with rateLimiter := some ⟨c, ra⟩ }) c ra hi rfl hra
      rw [this]
      rw [Prod.mk.injEq]
      have hle : cfg.maxMessagesPerMinute - c = 0 := by omega
      constructor <;> omega

/-- C4: the per-session limiter is a fixed 1-minute window: a send is
allowed iff the effective sent count of the current window is strictly
below the limit; the window resets lazily on the next check once
`now ≥ windowResetAt` (count back to 0, window now+60000); a successful
non-skipped immediate send increments the count; and `limit + 1`
back-to-back immediate sends starting with a fresh limiter yield exactly
`limit` successes and 1 rejection. -/
theorem rate_limiter_fixed_window :
    (∀ (limit : Nat) (now : Millis) (rl : Option RateLimiter), 0 < limit →
      ((checkRateLimit limit now rl).1 = true ↔ effectiveCount now rl < limit)) ∧
    (∀ (limit : Nat) (now : Millis) (r : RateLimiter), r.resetAt ≤ now →
      checkRateLimit limit now (some r) = (true, some ⟨0, now + 60000⟩)) ∧
    (∀ (cfg : SenderConfig) (st : SenderState) (toA msgText : String),
      st.isInitialized = true → validateInputs toA msgText = .ok () →
      (checkRateLimit cfg.maxMessagesPerMinute st.now st.rateLimiter).1 = true →
      ∃ ra, (sendImmediateMessage cfg st toA msgText false (.ok ())).1.rateLimiter =
          some ⟨effectiveCount st.now st.rateLimiter + 1, ra⟩ ∧
        (sendImmediateMessage cfg st toA msgText false (.ok ())).2 =
          .ok (formatPhoneNumber toA)) ∧
    (∀ (cfg : SenderConfig) (st : SenderState) (toA msgText : String),
      st.isInitialized = true → validateInputs toA msgText = .ok () →
      st.rateLimiter = none → 0 < cfg.maxMessagesPerMinute →
      (immediateBatch cfg toA msgText (cfg.maxMessagesPerMinute + 1) st).2 =
        (cfg.maxMessagesPerMinute, 1)) := by
  refine ⟨?_, ?_, ?_, ?_⟩
  · intro limit now rl hl
    cases rl with
    | none => simp [checkRateLimit, effectiveCount, hl]
    | some r =>
      by_cases hr : r.resetAt ≤ now
      · simp [checkRateLimit, effectiveCount, hr, hl]
      · simp [checkRateLimit, effectiveCount, hr]
  · intro limit now r hr
    rw [checkRateLimit, if_pos hr]
  · intro cfg st toA msgText hi hv hallow
    rcases hrl : st.rateLimiter with _ | r
    · refine ⟨st.now + 60000, ?_, ?_⟩
      · rw [sendImmediateMessage, hv]
        dsimp only
        simp only [hi, Bool.not_true, if_false, ite_false, ite_true, not_false_eq_true]
        rw [hrl]
        simp [checkRateLimit, recordSentMessage, effectiveCount]
      · rw [sendImmediateMessage, hv]
        dsimp only
        simp only [hi, Bool.not_true, if_false, ite_false, ite_true, not_false_eq_true]
        rw [hrl]
        simp [checkRateLimit, recordSentMessage]
    · by_cases hr : r.resetAt ≤ st.now
      · refine ⟨st.now + 60000, ?_, ?_⟩
        · rw [sendImmediateMessage, hv]
          dsimp only
          simp only [hi, Bool.not_true, if_false, ite_false, ite_true, not_false_eq_true]
          rw [hrl]
          simp [checkRateLimit, hr, recordSentMessage, effectiveCount]
        · rw [sendImmediateMessage, hv]
          dsimp only
          simp only [hi, Bool.not_true, if_false, ite_false, ite_true, not_false_eq_true]
          rw [hrl]
          simp [checkRateLimit, hr, recordSentMessage]
      · have hcount : r.count < cfg.maxMessagesPerMinute := by
          rw [hrl, checkRateLimit, if_neg hr] at hallow
          simpa using hallow
        refine ⟨r.resetAt, ?_, ?_⟩
        · rw [sendImmediateMessage, hv]
          dsimp only
          simp only [hi, Bool.not_true, if_false, ite_false, ite_true, not_false_eq_true]
          rw [hrl]
          simp [checkRateLimit, hr, hcount, recordSentMessage, effectiveCount]
        · rw [sendImmediateMessage, hv]
          dsimp only
          simp only [hi, Bool.not_true, if_false, ite_false, ite_true, not_false_eq_true]
          rw [hrl]
          simp [checkRateLimit, hr, hcount, recordSentMessage]
  · intro cfg st toA msgText hi hv hrl hl
    have hsend : sendImmediateMessage cfg st toA msgText false (.ok ()) =
        ({ st with rateLimiter := some ⟨1, st.now + 60000⟩, immediateSent := st.immediateSent ++ [formatPhoneNumber toA] },
         .ok (formatPhoneNumber toA)) := by
      rw [sendImmediateMessage, hv]
      dsimp only
      simp only [hi, Bool.not_true, if_false, ite_false, ite_true, not_false_eq_true]
      rw [hrl]
      simp [checkRateLimit, recordSentMessage]
    rw [immediateBatch, hsend]
    dsimp only
    have := immediateBatch_counts cfg toA msgText hv cfg.maxMessagesPerMinute
      ({ st with rateLimiter := some ⟨1, st.now + 60000⟩, immediateSent := st.immediateSent ++ [formatPhoneNumber toA] })
      1 (st.now + 60000) hi rfl (by linarith)
    rw [this]
    rw [Prod.mk.injEq]
    constructor <;> omega

/-- C4 witness: with `limit = 2` (demoCfg), three immediate sends at the
same instant from a fresh limiter give exactly 2 successes and 1
rejection. -/
theorem rate_limiter_fixed_window_witness :
    (immediateBatch demoCfg "111" "a" 3 demoEmpty).2 = (2, 1) :=
  rate_limiter_fixed_window.2.2.2 demoCfg demoEmpty "111" "a" rfl rfl rfl (by decide)

/-! ### Expiry (C5) -/

theorem le_waitForRateLimit (now : Millis) (rl : Option RateLimiter) :
    now ≤ waitForRateLimit now rl := by
  cases rl with
  | none => exact le_refl _
  | some r => exact le_max_left _ _

/-- Messages all of whose queue id-mates are already expired never get a
send attempt, whatever the drain loop does (the clock only moves forward,
and an expired head is dropped before the send). -/
theorem processQueue_no_attempt_of_expired (cfg : SenderConfig) (sendOk : Nat → Nat → Bool)
    (i : Nat) (hm : 0 ≤ cfg.retryMultiplier) :
    ∀ (fuel : Nat) (st : SenderState),
      (∀ m ∈ st.queue, (0 : ℚ) ≤ m.delay) →
      (∀ m ∈ st.queue, m.id = i → m.expiresAt < st.now) →
      ((processQueue cfg sendOk fuel st).sendAttempts.map Prod.fst).count i =
        ((st.sendAttempts.map Prod.fst).count i) := by
  intro fuel
  induction fuel with
  | zero =>
    intro st _ _
    rfl
  | succ fuel ih =>
    intro st hd hexp
    rcases hq : st.queue with _ | ⟨msg, rest⟩
    · rw [processQueue, hq]
    · rw [processQueue, hq]
      rw [hq] at hd hexp
      dsimp only
      by_cases hx : msg.expiresAt < st.now
      · rw [if_pos hx]
        refine ih _ ?_ ?_
        · intro m hm'
          exact hd m (List.mem_cons_of_mem _ hm')
        · intro m hm' he
          exact hexp m (List.mem_cons_of_mem _ hm') he
      · rw [if_neg hx]
        have hne : msg.id ≠ i := fun e => hx (hexp msg (List.mem_cons_self _ _) e)
        generalize (if msg.skipRateLimit = true then (true, st.rateLimiter)
            else checkRateLimit cfg.maxMessagesPerMinute st.now st.rateLimiter) = c
        by_cases hb : c.1 = true
        · rw [if_neg (not_not_intro hb)]
          by_cases hs : sendOk msg.id msg.attempts = true
          · rw [if_pos hs]
            have hnow : st.now ≤ if 0 < msg.delay then st.now + msg.delay else st.now := by
              by_cases h0 : (0 : ℚ) < msg.delay
              · rw [if_pos h0]
                linarith
              · rw [if_neg h0]
            refine (ih _ ?_ ?_).trans ?_
            · intro m hm'
              exact hd m (List.mem_cons_of_mem _ hm')
            · intro m hm' he
              exact lt_of_lt_of_le (hexp m (List.mem_cons_of_mem _ hm') he) hnow
            · dsimp only
              simp [List.count_append, List.count_eq_zero, Ne.symm hne]
          · rw [if_neg hs]
            by_cases hmax : msg.maxRetries ≤ msg.attempts + 1
            · rw [if_pos hmax]
              refine (ih _ ?_ ?_).trans ?_
              · intro m hm'
                exact hd m (List.mem_cons_of_mem _ hm')
              · intro m hm' he
                exact hexp m (List.mem_cons_of_mem _ hm') he
              · dsimp only
                simp [List.count_append, List.count_eq_zero, Ne.symm hne]
            · rw [if_neg hmax]
              have hdm : (0 : ℚ) ≤ msg.delay := hd msg (List.mem_cons_self _ _)
              have hnow : st.now ≤
                  st.now + msg.delay * cfg.retryMultiplier ^ (msg.attempts + 1 - 1) := by
                have : (0 : ℚ) ≤ msg.delay * cfg.retryMultiplier ^ (msg.attempts + 1 - 1) :=
                  mul_nonneg hdm (pow_nonneg hm _)
                linarith
              refine (ih _ ?_ ?_).trans ?_
              · intro m hm'
                rcases List.mem_cons.mp hm' with rfl | hm''
                · exact hdm
                · exact hd m (List.mem_cons_of_mem _ hm'')
              · intro m hm' he
                rcases List.mem_cons.mp hm' with rfl | hm''
                · exact absurd he hne
                · exact lt_of_lt_of_le (hexp m (List.mem_cons_of_mem _ hm'') he) hnow
              · dsimp only
                simp [List.count_append, List.count_eq_zero, Ne.symm hne]
        · rw [if_pos hb]
          refine ih _ ?_ ?_
          · intro m hm'
            exact hd m hm'
          · intro m hm' he
            exact lt_of_lt_of_le (hexp m hm' he) (le_waitForRateLimit st.now c.2)

/-- C5: a queued message whose `expiresAt` has passed is never delivered:
the drain loop drops an expired head without a send attempt, a message all
of whose queue entries (under its id) are expired never receives a send
attempt during any further processing however many retries remain, and the
periodic sweep removes every expired message. -/
theorem expired_message_never_delivered :
    (∀ cfg sendOk fuel (st : SenderState) msg rest,
      st.queue = msg :: rest → msg.expiresAt < st.now →
      processQueue cfg sendOk (fuel + 1) st =
        processQueue cfg sendOk fuel { st with queue := rest }) ∧
    (∀ cfg sendOk (i : Nat) fuel (st : SenderState), 0 ≤ cfg.retryMultiplier →
      (∀ m ∈ st.queue, (0 : ℚ) ≤ m.delay) →
      (∀ m ∈ st.queue, m.id = i → m.expiresAt < st.now) →
      ((processQueue cfg sendOk fuel st).sendAttempts.map Prod.fst).count i =
        ((st.sendAttempts.map Prod.fst).count i)) ∧
    (∀ (now : Millis) (queue : List QueuedMessage) m, m ∈ queue → m.expiresAt < now →
      m ∉ cleanupExpiredMessages now queue) := by
  refine ⟨?_, ?_, ?_⟩
  · intro cfg sendOk fuel st msg rest hq hx
    conv_lhs => rw [processQueue, hq]
    dsimp only
    rw [if_pos hx]
  · intro cfg sendOk i fuel st hm hd hexp
    exact processQueue_no_attempt_of_expired cfg sendOk i hm fuel st hd hexp
  · intro now queue m hmem hx hcontra
    have hkept := (List.mem_filter.mp hcontra).2
    simp only [decide_eq_true_eq] at hkept
    exact absurd hx (not_lt.mpr hkept)

/-- C5 witness: at `now = 1` the drain loop drops the message that expired
at 0 without attempting it, even though the adapter would succeed. -/
theorem expired_message_never_delivered_witness :
    processQueue demoCfg (fun _ _ => true) 1 expiredSt =
      processQueue demoCfg (fun _ _ => true) 0 { expiredSt with queue := [] } :=
  expired_message_never_delivered.1 demoCfg (fun _ _ => true) 0 expiredSt expiredMsg []
    rfl (by decide)

theorem retryWaitFrom_nonneg (delay mult : Millis) (hd : 0 ≤ delay) (hm : 0 ≤ mult) :
    ∀ (j a : Nat), 0 ≤ retryWaitFrom delay mult a j := by
  intro j
  induction j with
  | zero =>
    intro a
    simp [retryWaitFrom]
  | succ j ih =>
    intro a
    cases j with
    | zero => simp [retryWaitFrom]
    | succ j' =>
      rw [retryWaitFrom]
      have h1 : (0 : ℚ) ≤ delay * mult ^ a := mul_nonneg hd (pow_nonneg hm a)
      have h2 := ih (a + 1)
      linarith

theorem processQueue_fail_final_step (cfg : SenderConfig) (sendOk : Nat → Nat → Bool)
    (fuel : Nat) (st : SenderState) (msg : QueuedMessage) (rest : List QueuedMessage)
    (hq : st.queue = msg :: rest) (hskip : msg.skipRateLimit = true)
    (hnx : ¬ msg.expiresAt < st.now) (hfl : sendOk msg.id msg.attempts = false)
    (hmax : msg.maxRetries ≤ msg.attempts + 1) :
    processQueue cfg sendOk (fuel + 1) st =
      processQueue cfg sendOk fuel (failRunState st msg rest 0 1) := by
  conv_lhs => rw [processQueue, hq]
  dsimp only
  rw [if_neg hnx]
  simp only [hskip, ite_true, if_true]
  rw [if_neg (by simp)]
  simp only [hfl, Bool.false_eq_true, ite_false, if_false]
  rw [if_pos hmax]
  congr 1
  simp [failRunState, hskip]

theorem processQueue_fail_retry_step (cfg : SenderConfig) (sendOk : Nat → Nat → Bool)
    (fuel : Nat) (st : SenderState) (msg : QueuedMessage) (rest : List QueuedMessage)
    (hq : st.queue = msg :: rest) (hskip : msg.skipRateLimit = true)
    (hnx : ¬ msg.expiresAt < st.now) (hfl : sendOk msg.id msg.attempts = false)
    (hmax : ¬ msg.maxRetries ≤ msg.attempts + 1) :
    processQueue cfg sendOk (fuel + 1) st =
      processQueue cfg sendOk fuel (retryStepState st msg rest cfg) := by
  conv_lhs => rw [processQueue, hq]
  dsimp only
  rw [if_neg hnx]
  simp only [hskip, ite_true, if_true]
  rw [if_neg (by simp)]
  simp only [hfl, Bool.false_eq_true, ite_false, if_false]
  rw [if_neg hmax]
  congr 1
  simp [retryStepState, hskip]

/-- Running the drain loop on a head message that the adapter always
rejects and whose retry budget has `j + 1` attempts left. -/
theorem processQueue_head_always_fails (cfg : SenderConfig) (sendOk : Nat → Nat → Bool) :
    ∀ (j : Nat) (msg : QueuedMessage) (st : SenderState) (rest : List QueuedMessage)
      (fuel : Nat),
      st.queue = msg :: rest →
      msg.maxRetries = msg.attempts + (j + 1) →
      msg.skipRateLimit = true →
      (0 : ℚ) ≤ msg.delay → 0 ≤ cfg.retryMultiplier →
      st.now + retryWaitFrom msg.delay cfg.retryMultiplier msg.attempts (j + 1) ≤
        msg.expiresAt →
      (∀ t, sendOk msg.id t = false) →
      processQueue cfg sendOk (fuel + (j + 1)) st =
        processQueue cfg sendOk fuel
          (failRunState st msg rest
            (retryWaitFrom msg.delay cfg.retryMultiplier msg.attempts (j + 1)) (j + 1)) := by
  intro j
  induction j with
  | zero =>
    intro msg st rest fuel hq hmr hskip hd hm hexp hfail
    have hnn : 0 ≤ retryWaitFrom msg.delay cfg.retryMultiplier msg.attempts (0 + 1) :=
      retryWaitFrom_nonneg _ _ hd hm _ _
    have hnx : ¬ msg.expiresAt < st.now :=
      not_lt.mpr (le_trans (le_add_of_nonneg_right hnn) hexp)
    have hstep := processQueue_fail_final_step cfg sendOk fuel st msg rest hq hskip hnx
      (hfail _) (by omega)
    rw [show fuel + (0 + 1) = fuel + 1 by omega, hstep]
    exact congrArg _ (by simp [failRunState, retryWaitFrom])
  | succ j ih =>
    intro msg st rest fuel hq hmr hskip hd hm hexp hfail
    have hnn : 0 ≤ retryWaitFrom msg.delay cfg.retryMultiplier msg.attempts (j + 1 + 1) :=
      retryWaitFrom_nonneg _ _ hd hm _ _
    have hnx : ¬ msg.expiresAt < st.now :=
      not_lt.mpr (le_trans (le_add_of_nonneg_right hnn) hexp)
    have hstep := processQueue_fail_retry_step cfg sendOk (fuel + (j + 1)) st msg rest hq
      hskip hnx (hfail _) (by omega)
    rw [show fuel + (j + 1 + 1) = fuel + (j + 1) + 1 by omega, hstep]
    have hwait : retryWaitFrom msg.delay cfg.retryMultiplier msg.attempts (j + 1 + 1) =
        msg.delay * cfg.retryMultiplier ^ msg.attempts +
          retryWaitFrom msg.delay cfg.retryMultiplier (msg.attempts + 1) (j + 1) := by
      rw [retryWaitFrom]
    have hrec := ih { msg with attempts := msg.attempts + 1, status := "failed" }
      (retryStepState st msg rest cfg) rest fuel rfl
      (by show msg.maxRetries = msg.attempts + 1 + (j + 1); omega) hskip hd hm
      (by
        show st.now + msg.delay * cfg.retryMultiplier ^ (msg.attempts + 1 - 1) +
            retryWaitFrom msg.delay cfg.retryMultiplier (msg.attempts + 1) (j + 1) ≤
            msg.expiresAt
        simp only [Nat.add_sub_cancel]
        rw [hwait] at hexp
        linarith)
      (fun t => hfail t)
    rw [hrec]
    congr 1
    simp only [failRunState, retryStepState]
    rw [SenderState.mk.injEq]
    refine ⟨rfl, rfl, rfl, ?_, rfl, ?_, rfl, rfl, ?_, rfl⟩
    · simp only [Nat.add_sub_cancel]
      rw [hwait]
      ring
    · simp [List.append_assoc, List.replicate_succ]
    · have harith : msg.attempts + 1 + (j + 1) = msg.attempts + (j + 1 + 1) := by omega
      rw [harith]

/-- Whatever the drain loop does, `failedEvents` and `finished` only grow,
every newly emitted failure id belongs to a queued message, and the set of
queued ids only shrinks. -/
theorem processQueue_extends (cfg : SenderConfig) (sendOk : Nat → Nat → Bool) :
    ∀ (fuel : Nat) (st : SenderState),
      ∃ extraF extraD,
        (processQueue cfg sendOk fuel st).failedEvents = st.failedEvents ++ extraF ∧
        (∀ x ∈ extraF, x ∈ st.queue.map (fun m => m.id)) ∧
        (processQueue cfg sendOk fuel st).finished = st.finished ++ extraD ∧
        (∀ x ∈ (processQueue cfg sendOk fuel st).queue.map (fun m => m.id),
          x ∈ st.queue.map (fun m => m.id)) := by
  intro fuel
  induction fuel with
  | zero =>
    intro st
    exact ⟨[], [], by simp [processQueue], by simp, by simp [processQueue],
      by simp [processQueue]⟩
  | succ fuel ih =>
    intro st
    rcases hq : st.queue with _ | ⟨msg, rest⟩
    · refine ⟨[], [], ?_, by simp, ?_, ?_⟩
      · rw [processQueue, hq]
        simp
      · rw [processQueue, hq]
        simp
      · rw [processQueue, hq]
        dsimp only
        intro x hx
        rw [hq] at hx
        exact hx
    · rw [processQueue, hq]
      dsimp only
      by_cases hx : msg.expiresAt < st.now
      · rw [if_pos hx]
        obtain ⟨eF, eD, h1, h2, h3, h4⟩ := ih { st with queue := rest }
        refine ⟨eF, eD, h1, ?_, h3, ?_⟩
        · intro x hxm
          have := h2 x hxm
          simpa using Or.inr (by simpa using this)
        · intro x hxm
          have := h4 x hxm
          simpa using Or.inr (by simpa using this)
      · rw [if_neg hx]
        generalize (if msg.skipRateLimit = true then (true, st.rateLimiter)
            else checkRateLimit cfg.maxMessagesPerMinute st.now st.rateLimiter) = c
        by_cases hb : c.1 = true
        · rw [if_neg (not_not_intro hb)]
          by_cases hs : sendOk msg.id msg.attempts = true
          · rw [if_pos hs]
            obtain ⟨eF, eD, h1, h2, h3, h4⟩ := ih _
            refine ⟨eF, { msg with status := "sent" } :: eD, h1, ?_, ?_, ?_⟩
            · intro x hxm
              have := h2 x hxm
              simpa using Or.inr (by simpa using this)
            · rw [h3]
              simp
            · intro x hxm
              have := h4 x hxm
              simpa using Or.inr (by simpa using this)
          · rw [if_neg hs]
            by_cases hmax : msg.maxRetries ≤ msg.attempts + 1
            · rw [if_pos hmax]
              obtain ⟨eF, eD, h1, h2, h3, h4⟩ := ih _
              refine ⟨msg.id :: eF,
                { msg with attempts := msg.attempts + 1, status := "failed" } :: eD,
                ?_, ?_, ?_, ?_⟩
              · rw [h1]
                simp
              · intro x hxm
                rcases List.mem_cons.mp hxm with rfl | hxm'
                · simp
                · have := h2 x hxm'
                  simpa using Or.inr (by simpa using this)
              · rw [h3]
                simp
              · intro x hxm
                have := h4 x hxm
                simpa using Or.inr (by simpa using this)
            · rw [if_neg hmax]
              obtain ⟨eF, eD, h1, h2, h3, h4⟩ := ih _
              refine ⟨eF, eD, h1, ?_, h3, ?_⟩
              · intro x hxm
                exact h2 x hxm
              · intro x hxm
                exact h4 x hxm
        · rw [if_pos hb]
          obtain ⟨eF, eD, h1, h2, h3, h4⟩ := ih _
          refine ⟨eF, eD, h1, ?_, h3, ?_⟩
          · intro x hxm
            exact h2 x hxm
          · intro x hxm
            exact h4 x hxm

/-- C2: a queued message whose delivery attempt fails `maxRetries` times
ends with status `failed` (its terminal record lands in `finished`), is
removed from the session's queue, and gets exactly one `messageFailed`
notification; the transport errors are consumed inside the drain loop
(`processQueue` is total and returns a state, never a thrown error), so
nothing propagates to the caller that enqueued the message. -/
theorem message_fails_after_max_retries (cfg : SenderConfig) (sendOk : Nat → Nat → Bool)
    (st : SenderState) (msg : QueuedMessage) (rest : List QueuedMessage)
    (hq : st.queue = msg :: rest)
    (ha : msg.attempts = 0)
    (hr : 0 < msg.maxRetries)
    (hskip : msg.skipRateLimit = true)
    (hd : (0 : ℚ) ≤ msg.delay) (hm : 0 ≤ cfg.retryMultiplier)
    (hexp : st.now + retryWaitFrom msg.delay cfg.retryMultiplier msg.attempts msg.maxRetries ≤
      msg.expiresAt)
    (hfail : ∀ t, sendOk msg.id t = false)
    (hfresh : msg.id ∉ st.failedEvents)
    (hrest : msg.id ∉ rest.map (fun m => m.id)) :
    ∀ fuel,
      ((processQueue cfg sendOk (fuel + msg.maxRetries) st).failedEvents).count msg.id = 1 ∧
      msg.id ∉ (processQueue cfg sendOk (fuel + msg.maxRetries) st).queue.map
        (fun m => m.id) ∧
      { msg with attempts := msg.maxRetries, status := "failed" } ∈
        (processQueue cfg sendOk (fuel + msg.maxRetries) st).finished := by
  intro fuel
  obtain ⟨j, hj⟩ : ∃ j, msg.maxRetries = j + 1 := ⟨msg.maxRetries - 1, by omega⟩
  have hmr : msg.maxRetries = msg.attempts + (j + 1) := by omega
  have hexp' : st.now + retryWaitFrom msg.delay cfg.retryMultiplier msg.attempts (j + 1) ≤
      msg.expiresAt := by
    rw [← hj]
    exact hexp
  have hrun := processQueue_head_always_fails cfg sendOk j msg st rest fuel hq hmr hskip
    hd hm hexp' hfail
  rw [hj, hrun]
  obtain ⟨eF, eD, h1, h2, h3, h4⟩ := processQueue_extends cfg sendOk fuel
    (failRunState st msg rest
      (retryWaitFrom msg.delay cfg.retryMultiplier msg.attempts (j + 1)) (j + 1))
  have heF : msg.id ∉ eF := fun hc => hrest (h2 msg.id hc)
  refine ⟨?_, ?_, ?_⟩
  · rw [h1]
    show ((st.failedEvents ++ [msg.id]) ++ eF).count msg.id = 1
    rw [List.count_append, List.count_append, List.count_eq_zero.mpr hfresh,
      List.count_eq_zero.mpr heF]
    simp
  · intro hc
    exact hrest (h4 msg.id hc)
  · rw [h3]
    have hrecEq :
        ({ msg with attempts := msg.attempts + (j + 1), status := "failed" } :
          QueuedMessage) =
        { msg with attempts := j + 1, maxRetries := j + 1, status := "failed" } := by
      rw [ha, Nat.zero_add, hj]
    refine List.mem_append.mpr (Or.inl ?_)
    show ({ msg with attempts := j + 1, maxRetries := j + 1, status := "failed" } :
        QueuedMessage) ∈
      st.finished ++ [{ msg with attempts := msg.attempts + (j + 1), status := "failed" }]
    rw [hrecEq]
    exact List.mem_append.mpr (Or.inr (List.mem_cons_self _ _))

/-- C2 witness: with `maxRetries = 3` and an always-rejecting adapter, the
message ends failed and removed, with exactly one failure notification. -/
theorem message_fails_after_max_retries_witness :
    ((processQueue demoCfg (fun _ _ => false) (0 + c2Msg.maxRetries) c2St).failedEvents).count
      c2Msg.id = 1 ∧
    c2Msg.id ∉ (processQueue demoCfg (fun _ _ => false) (0 + c2Msg.maxRetries) c2St).queue.map
      (fun m => m.id) ∧
    { c2Msg with attempts := c2Msg.maxRetries, status := "failed" } ∈
      (processQueue demoCfg (fun _ _ => false) (0 + c2Msg.maxRetries) c2St).finished :=
  message_fails_after_max_retries demoCfg (fun _ _ => false) c2St c2Msg [] rfl rfl
    (by decide) rfl (le_refl 0) (by norm_num [demoCfg])
    (by simp [c2Msg, c2St, demoCfg, retryWaitFrom]) (fun t => rfl) (by simp [c2St])
    (by simp) 0

/-- C8 counterexample: with a stored, unexpired record for `s1`, asking for
the unsupported format `"png"` does NOT fail — `getQRCode` catches the
internal unsupported-format error and returns `null` (with the cache
untouched). -/
theorem getQRCode_unsupported_returns_null :
    getQRCode qrDemo "s1" "png" = (qrDemo, none) := rfl

/-- C8 (amended): for a stored, unexpired record and a format outside the
supported set, the body of `getQRCode` throws the unsupported-format error
(`Formato QR no soportado`), but the surrounding `catch` converts it to a
`null` result for the caller — the public method returns `null` rather
than failing. -/
theorem getQRCode_unsupported_caught (st : QRCacheState) (sid fmt : String) (qr : QRData)
    (hinit : st.isInitialized = true)
    (hfind : mapFind? sid st.qrCache = some qr)
    (hexp : ¬ qr.expiresAt < st.now)
    (hfmt : toLowerStr fmt ∉ supportedQRFormats) :
    getQRCodeRaw st sid fmt = .error ("Formato QR no soportado: " ++ fmt) ∧
    getQRCode st sid fmt = (st, none) := by
  simp only [supportedQRFormats, List.mem_cons, List.not_mem_nil, or_false, not_or] at hfmt
  obtain ⟨h1, h2, h3, h4, h5, h6, h7⟩ := hfmt
  have hraw : getQRCodeRaw st sid fmt = .error ("Formato QR no soportado: " ++ fmt) := by
    rw [getQRCodeRaw]
    rw [if_neg (by simp [hinit])]
    rw [hfind]
    dsimp only
    rw [if_neg hexp]
    rw [if_neg (not_or.mpr ⟨h1, h2⟩), if_neg h3, if_neg h4, if_neg h5, if_neg h6, if_neg h7]
  refine ⟨hraw, ?_⟩
  rw [getQRCode, hraw]

/-- C8 witness: the raw lookup for format `"png"` on the demo cache throws
the unsupported-format error and the public method returns `null`. -/
theorem getQRCode_unsupported_caught_witness :
    getQRCodeRaw qrDemo "s1" "png" = .error ("Formato QR no soportado: " ++ "png") ∧
    getQRCode qrDemo "s1" "png" = (qrDemo, none) :=
  getQRCode_unsupported_caught qrDemo "s1" "png" qrDemoData rfl rfl (by decide) (by decide)

end LeadMaster

